import Mathlib

/-!
# Verification of the trading-journal application

A shallow embedding, in Lean 4, of the core logic of a client-side
trading-journal web application: the net-P&L computation of the
add-trade and edit-trade handlers, the metrics aggregator, the
portfolio-metrics (drawdown) computation, the CSV import normalizer and
tokenizer, the CSV exporter, the portfolio-balance updates, and the
displayed-subset invariant relating `filteredTrades` to `trades`.

JavaScript numbers are modelled as rationals (`ℚ`), with `none : Option ℚ`
standing for `NaN` (or `null`, at the sites where only truthiness is
observed and the two are indistinguishable).  Fallible parsing returns
`Option`.  All definitions are executable.
-/

namespace TradingJournal

/-! ## Models of the JavaScript primitives used by the app -/

/-- Numeric value of a list of decimal digits (most significant first). -/
def digitsToNat (ds : List Char) : Nat :=
  ds.foldl (fun acc c => acc * 10 + (c.toNat - '0'.toNat)) 0

/-- Models the JavaScript builtin `parseFloat` on plain decimal literals:
leading whitespace is skipped, then an optional sign, integer digits, an
optional fractional part; any trailing garbage is ignored.  `none` stands
for `NaN` (no digits at all).  Exponent notation is not used by any input
considered here and is not modelled. -/
def jsParseFloat (s : String) : Option ℚ :=
  let cs := s.data.dropWhile (fun c => c.isWhitespace)
  let signed : ℚ × List Char :=
    match cs with
    | '-' :: r => (-1, r)
    | '+' :: r => (1, r)
    | _ => (1, cs)
  let intPart := signed.2.takeWhile (fun c => c.isDigit)
  let rest := signed.2.dropWhile (fun c => c.isDigit)
  let fracPart :=
    match rest with
    | '.' :: r => r.takeWhile (fun c => c.isDigit)
    | _ => []
  if intPart.isEmpty && fracPart.isEmpty then none
  else some (signed.1 *
    ((digitsToNat intPart : ℚ) + (digitsToNat fracPart : ℚ) / 10 ^ fracPart.length))

/-- Models the JavaScript builtin `parseInt` (radix 10): leading whitespace,
optional sign, then the longest prefix of decimal digits.  `none` stands for
`NaN`. -/
def jsParseInt (s : String) : Option Int :=
  let cs := s.data.dropWhile (fun c => c.isWhitespace)
  let signed : Int × List Char :=
    match cs with
    | '-' :: r => (-1, r)
    | '+' :: r => (1, r)
    | _ => (1, cs)
  let intPart := signed.2.takeWhile (fun c => c.isDigit)
  if intPart.isEmpty then none
  else some (signed.1 * (digitsToNat intPart : Int))

/-- Models `v || d` where `v` is a JS number that may be `NaN` (`none`):
`NaN` and `0` are falsy, every other number is truthy. -/
def jsOrQ (v : Option ℚ) (d : ℚ) : ℚ :=
  match v with
  | none => d
  | some x => if x = 0 then d else x

/-- Models `parseFloat(s) || d`. -/
def parseFloatOr (s : String) (d : ℚ) : ℚ :=
  jsOrQ (jsParseFloat s) d

/-- Models `parseFloat(s) || null`.  The result is `none` exactly when the
parse yields `NaN` or `0` (both falsy), so a `some` value is never `0`. -/
def parseFloatOrNull (s : String) : Option ℚ :=
  match jsParseFloat s with
  | none => none
  | some x => if x = 0 then none else some x

/-- Models `parseInt(s) || d`. -/
def parseIntOr (s : String) (d : Int) : Int :=
  match jsParseInt s with
  | none => d
  | some x => if x = 0 then d else x

/-- Models `s || d` for JS strings (the empty string is falsy).  At the call
sites modelled here an absent object property (`undefined`) and the empty
string are both falsy and are both represented by `""`. -/
def strOr (s d : String) : String :=
  if s = "" then d else s

/-! ## C1: net P&L and outcome of the add-trade / edit-trade handlers

`part_000` contains two revisions of the add/edit handlers.  The first
(`handleAddTrade` at part_000:308, `handleEditTradeSubmit` at part_000:766)
computes `net_pl` by the conditional entry/exit formula; the second
(`handleAddTrade` at part_000:1364, `handleEditTrade` at part_000:1500)
always computes `premium + fees`. -/

/-- The raw form-field strings read by the add/edit handlers. -/
structure TradeForm where
  entryPrice : String
  exitPrice : String
  quantity : String
  premium : String
  fees : String
deriving Repr, DecidableEq

/-- Net P&L of `handleAddTrade`, part_000:315-327.  `exitPrice` and
`entryPrice` come from `parseFloat(..) || null`, which never yields `0`, so
the truthiness test `if (exitPrice && entryPrice)` is the `some`/`some`
match; the `else if (premium)` branch tests `premium ≠ 0`, and when no
branch fires `netPL` keeps its initial value `0`. -/
def addTradeNetPLv1 (f : TradeForm) : ℚ :=
  let entryPrice := parseFloatOrNull f.entryPrice
  let exitPrice := parseFloatOrNull f.exitPrice
  let quantity := parseIntOr f.quantity 1
  let premium := parseFloatOr f.premium 0
  let fees := parseFloatOr f.fees 0
  match exitPrice, entryPrice with
  | some ex, some en => (ex - en) * (quantity : ℚ) + premium + fees
  | _, _ => if premium ≠ 0 then premium + fees else 0

/-- Net P&L of `handleEditTradeSubmit`, part_000:784-796 (same conditional
formula as `addTradeNetPLv1`, reading the edit-form fields). -/
def editTradeNetPLv1 (f : TradeForm) : ℚ :=
  let entryPrice := parseFloatOrNull f.entryPrice
  let exitPrice := parseFloatOrNull f.exitPrice
  let quantity := parseIntOr f.quantity 1
  let premium := parseFloatOr f.premium 0
  let fees := parseFloatOr f.fees 0
  match exitPrice, entryPrice with
  | some ex, some en => (ex - en) * (quantity : ℚ) + premium + fees
  | _, _ => if premium ≠ 0 then premium + fees else 0

/-- Net P&L of the second `handleAddTrade` revision, part_000:1392-1393:
`trade.net_pl = trade.premium + trade.fees`, ignoring entry/exit prices. -/
def addTradeNetPLv2 (f : TradeForm) : ℚ :=
  let premium := parseFloatOr f.premium 0
  let fees := parseFloatOr f.fees 0
  premium + fees

/-- Net P&L of `handleEditTrade`, part_000:1537:
`updatedTrade.net_pl = updatedTrade.premium + updatedTrade.fees`. -/
def editTradeNetPLv2 (f : TradeForm) : ℚ :=
  let premium := parseFloatOr f.premium 0
  let fees := parseFloatOr f.fees 0
  premium + fees

/-- Outcome classification used by every handler:
`netPL >= 0 ? "Win" : "Loss"`. -/
def tradeOutcome (pl : ℚ) : String :=
  if 0 ≤ pl then "Win" else "Loss"

/-! ## C2 / C6: the metrics aggregators

Two revisions of `calculateMetrics`: `src/app.js:513-549` (wins/losses
classified by the sign of `net_pl`, `winRate` a fraction) and
`src/unnamed/part_002:1824-1856` (wins/losses classified by the stored
`outcome` string, `winRate` a percentage). -/

/-- A stored trade as seen by the metrics aggregators: only `net_pl` and
`outcome` are read.  `net_pl = none` models a missing or `NaN` value. -/
structure MTrade where
  net_pl : Option ℚ
  outcome : String
deriving Repr, DecidableEq

/-- Models `trades.reduce((sum, t) => sum + (t.net_pl || 0), 0)`. -/
def sumPL (l : List MTrade) : ℚ :=
  l.foldl (fun s t => s + jsOrQ t.net_pl 0) 0

/-- Models `Math.max(...trades.map(t => t.net_pl || 0))` for a nonempty
spread (the empty case is `-Infinity` in JS and is never reached: the
callers guard on `trades.length > 0`). -/
def listMaxPL (l : List MTrade) : ℚ :=
  match l with
  | [] => 0
  | t :: ts => ts.foldl (fun m u => max m (jsOrQ u.net_pl 0)) (jsOrQ t.net_pl 0)

/-- Models `Math.min(...trades.map(t => t.net_pl || 0))`, same caveat. -/
def listMinPL (l : List MTrade) : ℚ :=
  match l with
  | [] => 0
  | t :: ts => ts.foldl (fun m u => min m (jsOrQ u.net_pl 0)) (jsOrQ t.net_pl 0)

/-- `trades.filter(t => (t.net_pl || 0) >= 0)`, src/app.js:532. -/
def ajWins (l : List MTrade) : List MTrade :=
  l.filter (fun t => 0 ≤ jsOrQ t.net_pl 0)

/-- `trades.filter(t => (t.net_pl || 0) < 0)`, src/app.js:533. -/
def ajLosses (l : List MTrade) : List MTrade :=
  l.filter (fun t => jsOrQ t.net_pl 0 < 0)

/-- Result record of `calculateMetrics`, src/app.js:535-548. -/
structure Metrics where
  totalTrades : Nat
  totalPL : ℚ
  winRate : ℚ
  totalWins : Nat
  totalLosses : Nat
  averageWin : ℚ
  averageLoss : ℚ
  largestWin : ℚ
  largestLoss : ℚ
  profitFactor : ℚ
deriving Repr, DecidableEq

/-- `calculateMetrics`, src/app.js:513-549.  The input is
`this.filteredTrades`. -/
def calculateMetrics (trades : List MTrade) : Metrics :=
  if trades.length = 0 then
    { totalTrades := 0, totalPL := 0, winRate := 0, totalWins := 0, totalLosses := 0
      averageWin := 0, averageLoss := 0, largestWin := 0, largestLoss := 0
      profitFactor := 0 }
  else
    let wins := ajWins trades
    let losses := ajLosses trades
    { totalTrades := trades.length
      totalPL := sumPL trades
      winRate := if 0 < trades.length then (wins.length : ℚ) / (trades.length : ℚ) else 0
      totalWins := wins.length
      totalLosses := losses.length
      averageWin := if 0 < wins.length then sumPL wins / (wins.length : ℚ) else 0
      averageLoss := if 0 < losses.length then sumPL losses / (losses.length : ℚ) else 0
      largestWin := if 0 < trades.length then listMaxPL trades else 0
      largestLoss := if 0 < trades.length then listMinPL trades else 0
      profitFactor := if 0 < losses.length then sumPL wins / |sumPL losses|
        else if 0 < wins.length then 999 else 0 }

/-- `allTrades.filter(t => t.outcome === "Win")`, part_002:1837. -/
def p2Wins (l : List MTrade) : List MTrade :=
  l.filter (fun t => t.outcome == "Win")

/-- `allTrades.filter(t => t.outcome === "Loss")`, part_002:1838. -/
def p2Losses (l : List MTrade) : List MTrade :=
  l.filter (fun t => t.outcome == "Loss")

/-- Result record of `calculateMetrics`, part_002:1824-1856. -/
structure MetricsP2 where
  totalPL : ℚ
  winRate : ℚ
  totalTrades : Nat
  avgWin : ℚ
  avgLoss : ℚ
  profitFactor : ℚ
deriving Repr, DecidableEq

/-- `calculateMetrics`, part_002:1824-1856.  `parseFloat(t.net_pl) || 0` on
a stored number is the number itself unless it is `NaN` or `0`, in which
case it is `0`; both are `jsOrQ t.net_pl 0` here.  Note `winRate` is a
percentage (`* 100`) and wins/losses are classified by the `outcome`
string. -/
def calculateMetricsP2 (allTrades : List MTrade) : MetricsP2 :=
  if allTrades.length = 0 then
    { totalPL := 0, winRate := 0, totalTrades := 0, avgWin := 0, avgLoss := 0
      profitFactor := 0 }
  else
    let wins := p2Wins allTrades
    let losses := p2Losses allTrades
    let grossWins := sumPL wins
    let grossLosses := |sumPL losses|
    { totalPL := sumPL allTrades
      winRate := if 0 < allTrades.length
        then (wins.length : ℚ) / (allTrades.length : ℚ) * 100 else 0
      totalTrades := allTrades.length
      avgWin := if 0 < wins.length then sumPL wins / (wins.length : ℚ) else 0
      avgLoss := if 0 < losses.length then |sumPL losses / (losses.length : ℚ)| else 0
      profitFactor := if 0 < grossLosses then grossWins / grossLosses
        else if 0 < grossWins then 999 else 0 }

/-! ## C3: portfolio-balance updates of add and delete

`addTrade` (part_002:1223-1246, line 1237) adds
`parseFloat(tradeData.net_pl) || 0` to `currentBalance`; `deleteTrade`
(part_002:1282-1302, line 1290, and part_000:2143-2172, line 2151)
subtracts the same amount. -/

/-- Balance update of `addTrade`, part_002:1237:
`portfolioSettings.currentBalance += parseFloat(tradeData.net_pl) || 0`. -/
def addTradeBalance (currentBalance : ℚ) (net_pl : Option ℚ) : ℚ :=
  currentBalance + jsOrQ net_pl 0

/-- Balance update of `deleteTrade`, part_002:1290 (and part_000:2151,
`this.currentBalance -= (trade.net_pl || 0)`):
`portfolioSettings.currentBalance -= parseFloat(trade.net_pl) || 0`. -/
def deleteTradeBalance (currentBalance : ℚ) (net_pl : Option ℚ) : ℚ :=
  currentBalance - jsOrQ net_pl 0

/-! ## C4: the portfolio-metrics (drawdown) computations

`calculatePortfolioMetrics` exists in two revisions:
part_000:909-962 walks the balance history tracking a running peak and the
maximum of `(peak - balance) / peak`; the rebuilt `src/app.js:551-565`
returns `maxDrawdown: 0` unconditionally. -/

/-- One step of the part_000 drawdown loop (part_000:925-929): raise the
peak if the balance exceeds it, then fold in `(peak - balance) / peak`.
In JS a peak of `0` would make the division `NaN`/`Infinity`; the drawdown
theorems therefore assume a positive starting capital, which keeps every
peak positive. -/
def drawdownStep (acc : ℚ × ℚ) (balance : ℚ) : ℚ × ℚ :=
  let peak := if acc.1 < balance then balance else acc.1
  (peak, max acc.2 ((peak - balance) / peak))

/-- Per-period returns (part_000:934-942): for each consecutive pair of
balances, `(current - prev) / prev` when `prev > 0`, else `0`. -/
def dailyReturnsOf (history : List ℚ) : List ℚ :=
  (history.zip history.tail).map (fun p => if 0 < p.1 then (p.2 - p.1) / p.1 else 0)

/-- Result record of `calculatePortfolioMetrics`, part_000:948-959.  The
`sharpeRatio` field uses `Math.sqrt` (an irrational function on floats) and
is not modelled; no claim mentions it. -/
structure PortfolioMetricsP0 where
  startingCapital : ℚ
  currentBalance : ℚ
  totalReturn : ℚ
  returnPercentage : ℚ
  maxDrawdown : ℚ
  maxBalance : ℚ
  minBalance : ℚ
  tradingDays : Nat
  avgDailyReturn : ℚ
deriving Repr, DecidableEq

/-- `calculatePortfolioMetrics`, part_000:909-962.  The `balance` values
of the history entries are passed as a list of rationals, in stored order. -/
def calculatePortfolioMetricsP0 (startingCapital currentBalance : ℚ)
    (portfolioHistory : List ℚ) : PortfolioMetricsP0 :=
  let totalReturn := currentBalance - startingCapital
  let dailyReturns := dailyReturnsOf portfolioHistory
  { startingCapital := startingCapital
    currentBalance := currentBalance
    totalReturn := totalReturn
    returnPercentage := if 0 < startingCapital then totalReturn / startingCapital else 0
    maxDrawdown := (portfolioHistory.foldl drawdownStep (startingCapital, 0)).2
    maxBalance := portfolioHistory.foldl max startingCapital
    minBalance := portfolioHistory.foldl min startingCapital
    tradingDays := portfolioHistory.length
    avgDailyReturn := if 0 < dailyReturns.length
      then dailyReturns.sum / (dailyReturns.length : ℚ) else 0 }

/-- Result record of `calculatePortfolioMetrics`, src/app.js:555-564. -/
structure PortfolioMetricsAJ where
  startingCapital : ℚ
  currentBalance : ℚ
  totalReturn : ℚ
  returnPercentage : ℚ
  maxDrawdown : ℚ
  maxBalance : ℚ
  sharpeRatio : ℚ
  tradingDays : Nat
deriving Repr, DecidableEq

/-- `calculatePortfolioMetrics`, src/app.js:551-565: `maxDrawdown` and
`sharpeRatio` are the literal constant `0`; the balance history is only
used for its length. -/
def calculatePortfolioMetricsAJ (startingCapital currentBalance : ℚ)
    (portfolioHistory : List ℚ) : PortfolioMetricsAJ :=
  let totalReturn := currentBalance - startingCapital
  { startingCapital := startingCapital
    currentBalance := currentBalance
    totalReturn := totalReturn
    returnPercentage := if 0 < startingCapital then totalReturn / startingCapital else 0
    maxDrawdown := 0
    maxBalance := currentBalance
    sharpeRatio := 0
    tradingDays := portfolioHistory.length }

/-- The running peaks of a balance history: entry `i` is the maximum of the
starting peak and the first `i+1` balances. -/
def runningPeaks (start : ℚ) (history : List ℚ) : List ℚ :=
  (history.scanl max start).tail

/-- Modelled from the spec: "maximum drawdown (`max over time of
(peak−balance)/peak`)" — the maximum, over the time-ordered balance
sequence, of `(peak - balance) / peak` with `peak` the running peak. -/
def maxDrawdownSpec (start : ℚ) (history : List ℚ) : ℚ :=
  (((runningPeaks start history).zip history).map
    (fun p => (p.1 - p.2) / p.1)).foldl max 0

/-! ## C10: the displayed-subset invariant

The in-memory state kept by the part_000 `TradingJournal` class consists of
the `trades` array and the `filteredTrades` array.  The operations below
are the ways the two arrays are updated: `loadAllData` (app.js:120-135),
`handleAddTrade` (part_000:356-357), `deleteTrade` (part_000:2158-2159),
`commitImport` (part_000:1815-1834), `applyFilters` (part_000:2091-2121)
and `resetFilters` (part_000:2123-2141). -/

/-- A stored trade as far as the trade/filteredTrades bookkeeping is
concerned: the identifier, the fields the filter predicate reads, and the
net P&L. -/
structure TradeR where
  id : Option Int
  date : String
  ticker : String
  strategy : String
  net_pl : Option ℚ
deriving Repr, DecidableEq

/-- The two in-memory arrays. -/
structure JState where
  trades : List TradeR
  filteredTrades : List TradeR
deriving Repr, DecidableEq

/-- Insertion sort by descending date value — a model of
`this.trades.sort((a, b) => new Date(b.date) - new Date(a.date))`, with
`dv` the numeric value `new Date(·)` of a date string.  (Which comparator
JS `sort` uses affects only the order, never the multiset of elements.) -/
def insertDesc (dv : String → Int) (t : TradeR) : List TradeR → List TradeR
  | [] => [t]
  | u :: us => if dv u.date ≤ dv t.date then t :: u :: us else u :: insertDesc dv t us

/-- See `insertDesc`. -/
def sortByDateDesc (dv : String → Int) : List TradeR → List TradeR
  | [] => []
  | t :: ts => insertDesc dv t (sortByDateDesc dv ts)

/-- `loadAllData`, src/app.js:120-135: load all trades, sort them by date
descending, and set `filteredTrades` to a copy of `trades`. -/
def loadAllData (dv : String → Int) (dbTrades : List TradeR) : JState :=
  let ts := sortByDateDesc dv dbTrades
  { trades := ts, filteredTrades := ts }

/-- `handleAddTrade`, part_000:356-357: `this.trades.unshift(trade)` then
`this.filteredTrades = [...this.trades]`. -/
def addTradeState (s : JState) (t : TradeR) : JState :=
  { trades := t :: s.trades, filteredTrades := t :: s.trades }

/-- `deleteTrade`, part_000:2158-2159: both arrays are filtered by
`t.id !== id`. -/
def deleteTradeState (s : JState) (id : Int) : JState :=
  { trades := s.trades.filter (fun t => t.id ≠ some id)
    filteredTrades := s.filteredTrades.filter (fun t => t.id ≠ some id) }

/-- `commitImport`, part_000:1815-1834 (append mode): the preview trades
are pushed onto `trades`, which is then sorted by date descending, and
`filteredTrades` becomes a copy of `trades`. -/
def commitImportState (dv : String → Int) (s : JState) (preview : List TradeR) : JState :=
  let ts := sortByDateDesc dv (s.trades ++ preview)
  { trades := ts, filteredTrades := ts }

/-- The filter criteria read from the filter inputs (part_000:2094-2097);
the empty string means the filter is unset (falsy). -/
structure FilterCriteria where
  ticker : String
  strategy : String
  dateFrom : String
  dateTo : String
deriving Repr, DecidableEq

/-- The filter predicate of `applyFilters`, part_000:2099-2116. -/
def matchesFilters (dv : String → Int) (c : FilterCriteria) (t : TradeR) : Bool :=
  if c.ticker ≠ "" ∧ t.ticker ≠ c.ticker then false
  else if c.strategy ≠ "" ∧ t.strategy ≠ c.strategy then false
  else if c.dateFrom ≠ "" ∧ dv t.date < dv c.dateFrom then false
  else if c.dateTo ≠ "" ∧ dv c.dateTo < dv t.date then false
  else true

/-- `applyFilters`, part_000:2099-2116:
`this.filteredTrades = this.trades.filter(...)`. -/
def applyFiltersState (dv : String → Int) (s : JState) (c : FilterCriteria) : JState :=
  { trades := s.trades, filteredTrades := s.trades.filter (matchesFilters dv c) }

/-- `resetFilters`, part_000:2136: `this.filteredTrades = [...this.trades]`. -/
def resetFiltersState (s : JState) : JState :=
  { trades := s.trades, filteredTrades := s.trades }

/-- The displayed-subset invariant: `filteredTrades` is a sub-multiset of
`trades`. -/
def displayedSubset (s : JState) : Prop :=
  (s.filteredTrades : Multiset TradeR) ≤ (s.trades : Multiset TradeR)

/-! ## C5 / C7 / C8 / C9: the CSV import/export stack

String helpers first: models of the JS string builtins the import code
uses (`trim`, `toLowerCase`, `toUpperCase`, `split`, `replace`). -/

/-- Models `s.trim()`: strips leading and trailing whitespace. -/
def jsTrim (s : String) : String :=
  String.mk (((s.data.dropWhile (fun c => c.isWhitespace)).reverse.dropWhile
    (fun c => c.isWhitespace)).reverse)

/-- Models `s.toLowerCase()` (ASCII, which is all the app uses). -/
def jsToLower (s : String) : String :=
  String.mk (s.data.map Char.toLower)

/-- Models `s.toUpperCase()` (ASCII). -/
def jsToUpper (s : String) : String :=
  String.mk (s.data.map Char.toUpper)

/-- Models removing every double-quote character — the
`replace(/"/g, ...)` with an empty replacement used on app.js values. -/
def removeQuotes (s : String) : String :=
  String.mk (s.data.filter (fun c => c ≠ '"'))

/-- Helper for `jsSplit`: the accumulated current field is kept reversed. -/
def splitCharAux (sep : Char) : List Char → List Char → List String
  | [], cur => [String.mk cur.reverse]
  | c :: rest, cur =>
    if c = sep then String.mk cur.reverse :: splitCharAux sep rest []
    else splitCharAux sep rest (c :: cur)

/-- Models `s.split(sep)` for a one-character separator: one more field
than separator occurrences, fields possibly empty. -/
def jsSplit (sep : Char) (s : String) : List String :=
  splitCharAux sep s.data []

/-- Helper for `collapseWs`: the flag records whether the previous
character was whitespace (so a run produces a single underscore). -/
def collapseWsAux : Bool → List Char → List Char
  | _, [] => []
  | prevWs, c :: rest =>
    if c.isWhitespace then
      (if prevWs then [] else ['_']) ++ collapseWsAux true rest
    else c :: collapseWsAux false rest

/-- Models `s.replace(/\s+/g, "_")`: each maximal run of whitespace
becomes a single underscore. -/
def collapseWs (s : String) : String :=
  String.mk (collapseWsAux false s.data)

/-- Header normalization of part_000:1677 / part_001:600:
`h.toLowerCase().replace(/\s+/g, "_")`. -/
def normalizeHeader (h : String) : String :=
  collapseWs (jsToLower h)

/-- Header normalization of src/app.js:311:
`h.trim().replace(/"/g, ...).toLowerCase().replace(/\s+/g, "_")`. -/
def normalizeHeaderAJ (h : String) : String :=
  collapseWs (jsToLower (removeQuotes (jsTrim h)))

/-- One character step of `parseCSVLine`, part_000:1650-1661: a quote
toggles `inQuotes`, an unquoted comma closes the current field (trimmed),
anything else is appended to the current field. -/
def parseCSVLineStep (acc : List String × List Char × Bool) (c : Char) :
    List String × List Char × Bool :=
  match acc with
  | (result, current, inQuotes) =>
    if c = '"' then (result, current, !inQuotes)
    else if c = ',' ∧ inQuotes = false then
      (result ++ [jsTrim (String.mk current)], [], inQuotes)
    else (result, current ++ [c], inQuotes)

/-- `parseCSVLine`, part_000:1645-1665 (identical at part_001:572-590):
quote-aware tokenizer; the final field is pushed after the loop. -/
def parseCSVLine (line : String) : List String :=
  let fin := line.data.foldl parseCSVLineStep ([], [], false)
  fin.1 ++ [jsTrim (String.mk fin.2.1)]

/-- `parseCSVLine`, part_002:2458-2482: like the part_000 tokenizer but a
doubled quote inside a quoted field produces a literal quote, and fields
are not trimmed.  The argument order is `inQuotes current result chars`. -/
def parseCSVLineP2Aux : Bool → List Char → List String → List Char → List String
  | _, current, result, [] => result ++ [String.mk current]
  | inQuotes, current, result, [c] =>
    if c = '"' then parseCSVLineP2Aux (!inQuotes) current result []
    else if c = ',' ∧ inQuotes = false then
      parseCSVLineP2Aux inQuotes [] (result ++ [String.mk current]) []
    else parseCSVLineP2Aux inQuotes (current ++ [c]) result []
  | inQuotes, current, result, c1 :: c2 :: rest =>
    if c1 = '"' ∧ inQuotes ∧ c2 = '"' then
      parseCSVLineP2Aux inQuotes (current ++ ['"']) result rest
    else if c1 = '"' then parseCSVLineP2Aux (!inQuotes) current result (c2 :: rest)
    else if c1 = ',' ∧ inQuotes = false then
      parseCSVLineP2Aux inQuotes [] (result ++ [String.mk current]) (c2 :: rest)
    else parseCSVLineP2Aux inQuotes (current ++ [c1]) result (c2 :: rest)

/-- See `parseCSVLineP2Aux`. -/
def parseCSVLineP2 (line : String) : List String :=
  parseCSVLineP2Aux false [] [] line.data

/-- The value list of an app.js data row, src/app.js:317:
`lines[i].split(",").map(v => v.trim().replace(/"/g, ...))` — a naive
comma split that ignores quoting. -/
def appjsRowValues (line : String) : List String :=
  (jsSplit ',' line).map (fun v => removeQuotes (jsTrim v))

/-- The line list of the importers (src/app.js:305, part_000:1671,
part_001:594): split on newline, trim each line, drop empty lines. -/
def csvLines (content : String) : List String :=
  ((jsSplit '\n' content).map jsTrim).filter (fun l => l ≠ "")

/-- Lookup in a header→value row object.  Assignments are made in header
order with later duplicates overwriting earlier ones, hence the reversed
search.  An absent key is `undefined` in JS; the empty string and
`undefined` are both falsy at every site that reads a row, so both are
`""` here. -/
def lookupRow (row : List (String × String)) (k : String) : String :=
  match row.reverse.find? (fun p => p.1 == k) with
  | some p => p.2
  | none => ""

/-- part_000:1686-1690 / part_001:607-611: pad the value list with `""`
up to the header count. -/
def padValues (n : Nat) (vs : List String) : List String :=
  vs ++ List.replicate (n - vs.length) ""

/-- `v >= 0` in JS where `v` may be `NaN`: `NaN >= 0` is false. -/
def jsGe0 (v : Option ℚ) : Bool :=
  match v with
  | none => false
  | some q => decide (0 ≤ q)

/-- A trade record normalized by the part_000/part_001 CSV importer.
`raw` keeps the header→value assignments (the JS object retains every raw
column); `created_at` is the wall clock and is not modelled.  For
`entry_price`/`exit_price` the code stores `null` for an empty string and
the parse result (possibly `NaN`) otherwise; `none` stands for both `null`
and `NaN`, which no later code distinguishes. -/
structure CSVTrade where
  raw : List (String × String)
  date : String
  ticker : String
  strategy : String
  outcome : String
  net_pl : Option ℚ
  premium : Option ℚ
  fees : Option ℚ
  quantity : Option Int
  entry_price : Option ℚ
  exit_price : Option ℚ
deriving Repr, DecidableEq

/-- The field normalization of part_000:1707-1717 (identical at
part_001:623-633) applied to one row object.  `-0.65` is `-(65/100)`;
`parseFloat(x || 0)` parses the literal `0` when `x` is empty. -/
def normRow (row : List (String × String)) : CSVTrade :=
  let net_pl_str := strOr (lookupRow row "net_pl") (lookupRow row "net_p_l")
  let net_pl : Option ℚ := if net_pl_str = "" then some 0 else jsParseFloat net_pl_str
  { raw := row
    date := lookupRow row "date"
    ticker := jsToUpper (lookupRow row "ticker")
    strategy := strOr (lookupRow row "strategy") "Unknown"
    outcome := strOr (lookupRow row "outcome") (if jsGe0 net_pl then "Win" else "Loss")
    net_pl := net_pl
    premium := if lookupRow row "premium" = "" then some 0
      else jsParseFloat (lookupRow row "premium")
    fees := if lookupRow row "fees" = "" then some (-(65/100))
      else jsParseFloat (lookupRow row "fees")
    quantity := if lookupRow row "quantity" = "" then some 1
      else jsParseInt (lookupRow row "quantity")
    entry_price := if lookupRow row "entry_price" = "" then none
      else jsParseFloat (lookupRow row "entry_price")
    exit_price := if lookupRow row "exit_price" = "" then none
      else jsParseFloat (lookupRow row "exit_price") }

/-- part_000:1697-1705 / part_001:618-621: a row is skipped when its date
or ticker is missing or empty. -/
def rowValid (row : List (String × String)) : Bool :=
  (lookupRow row "date" != "") && (lookupRow row "ticker" != "")

/-- The row object of one data line: tokenize, pad, zip with the headers
(part_000:1684-1695). -/
def rowOf (headers : List String) (line : String) : List (String × String) :=
  headers.zip (padValues headers.length (parseCSVLine line))

/-- One iteration of the parseCSV data-row loop, part_000:1683-1720:
valid rows are normalized and collected, invalid rows increment the skip
counter. -/
def parseCSVStep (headers : List String) (acc : List CSVTrade × Nat)
    (line : String) : List CSVTrade × Nat :=
  let row := rowOf headers line
  if rowValid row then (acc.1 ++ [normRow row], acc.2) else (acc.1, acc.2 + 1)

/-- The data-row loop of parseCSV. -/
def parseCSVRows (headers : List String) (rows : List String) :
    List CSVTrade × Nat :=
  rows.foldl (parseCSVStep headers) ([], 0)

/-- `parseCSV`, part_000:1667-1737 and (the same computation, with the two
skip branches merged into one) part_001:592-653: `none` models the
"CSV file must have header and data rows" abort. -/
def parseCSV (content : String) : Option (List CSVTrade × Nat) :=
  match csvLines content with
  | l0 :: l1 :: rest =>
    some (parseCSVRows ((parseCSVLine l0).map normalizeHeader) (l1 :: rest))
  | _ => none

/-- The app.js parseCSV row handling, src/app.js:316-339, restricted to
which row objects survive: a row whose naive comma-split value count
differs from the header count is dropped (src/app.js:318), as is a row
missing its date or ticker (src/app.js:326). -/
def parseCSVAppjsRows (headers : List String) (rows : List String) :
    List (List (String × String)) :=
  rows.filterMap (fun line =>
    let values := appjsRowValues line
    if values.length = headers.length then
      let row := headers.zip values
      if rowValid row then some row else none
    else none)

/-- A trade record normalized by the app.js importer (it performs no
entry/exit normalization). -/
structure AJTrade where
  raw : List (String × String)
  date : String
  ticker : String
  strategy : String
  outcome : String
  net_pl : Option ℚ
  premium : Option ℚ
  fees : Option ℚ
  quantity : Option Int
deriving Repr, DecidableEq

/-- The field normalization of src/app.js:329-336.  Unlike the part_000
importer, `outcome` is always recomputed from the sign of `net_pl`
(src/app.js:335), even when the CSV supplies one. -/
def normRowAJ (row : List (String × String)) : AJTrade :=
  let net_pl_str := strOr (lookupRow row "net_pl") (lookupRow row "net_p_l")
  let net_pl : Option ℚ := if net_pl_str = "" then some 0 else jsParseFloat net_pl_str
  { raw := row
    date := lookupRow row "date"
    ticker := jsToUpper (lookupRow row "ticker")
    strategy := strOr (lookupRow row "strategy") "Unknown"
    outcome := if jsGe0 net_pl then "Win" else "Loss"
    net_pl := net_pl
    premium := if lookupRow row "premium" = "" then some 0
      else jsParseFloat (lookupRow row "premium")
    fees := if lookupRow row "fees" = "" then some (-(65/100))
      else jsParseFloat (lookupRow row "fees")
    quantity := if lookupRow row "quantity" = "" then some 1
      else jsParseInt (lookupRow row "quantity") }

/-- The trade object built by `importCSV`, part_002:2538-2558.  (The
part_002 `parseCSV` keeps the raw, un-normalized header strings as keys,
hence the capitalized alternatives.)  String `null` defaults are `""`
(only truthiness is observed); `parseFloat(x) || null` never stores 0. -/
structure TradeDataP2 where
  date : String
  ticker : String
  strategy : String
  option_type : String
  strike : Option ℚ
  expiration : String
  quantity : Int
  entry_price : ℚ
  exit_price : Option ℚ
  premium : ℚ
  fees : ℚ
  net_pl : ℚ
  outcome : String
  delta : Option ℚ
  gamma : Option ℚ
  theta : Option ℚ
  vega : Option ℚ
  trade_notes : String
  post_trade_analysis : String
deriving Repr, DecidableEq

/-- The column mapping of `importCSV`, part_002:2538-2558. -/
def importRowP2 (row : List (String × String)) : TradeDataP2 :=
  { date := strOr (lookupRow row "date") (lookupRow row "Date")
    ticker := jsToUpper (strOr (lookupRow row "ticker") (lookupRow row "Ticker"))
    strategy := strOr (lookupRow row "strategy") (lookupRow row "Strategy")
    option_type := strOr (strOr (lookupRow row "option_type")
      (lookupRow row "OptionType")) "CALL"
    strike := parseFloatOrNull (strOr (lookupRow row "strike") (lookupRow row "Strike"))
    expiration := strOr (lookupRow row "expiration") (lookupRow row "Expiration")
    quantity := parseIntOr (strOr (lookupRow row "quantity") (lookupRow row "Quantity")) 1
    entry_price := parseFloatOr (strOr (lookupRow row "entry_price")
      (lookupRow row "EntryPrice")) 0
    exit_price := parseFloatOrNull (strOr (lookupRow row "exit_price")
      (lookupRow row "ExitPrice"))
    premium := parseFloatOr (strOr (lookupRow row "premium") (lookupRow row "Premium")) 0
    fees := parseFloatOr (strOr (lookupRow row "fees") (lookupRow row "Fees")) 0
    net_pl := parseFloatOr (strOr (strOr (lookupRow row "net_pl")
      (lookupRow row "NetPL")) (lookupRow row "PL")) 0
    outcome := strOr (strOr (lookupRow row "outcome") (lookupRow row "Outcome")) "Win"
    delta := parseFloatOrNull (strOr (lookupRow row "delta") (lookupRow row "Delta"))
    gamma := parseFloatOrNull (strOr (lookupRow row "gamma") (lookupRow row "Gamma"))
    theta := parseFloatOrNull (strOr (lookupRow row "theta") (lookupRow row "Theta"))
    vega := parseFloatOrNull (strOr (lookupRow row "vega") (lookupRow row "Vega"))
    trade_notes := strOr (strOr (lookupRow row "trade_notes")
      (lookupRow row "TradeNotes")) (lookupRow row "Notes")
    post_trade_analysis := strOr (strOr (lookupRow row "post_trade_analysis")
      (lookupRow row "PostTradeAnalysis")) (lookupRow row "Analysis") }

/-! ### The part_001 CSV exporter -/

/-- Integer to decimal string. -/
def intToStr (i : Int) : String :=
  if i < 0 then "-" ++ Nat.repr i.natAbs else Nat.repr i.natAbs

/-- Fractional decimal digits of `rem / den` (most significant first);
the fuel bounds the digit count and the recursion stops at remainder 0. -/
def fracDigitsNat : Nat → Nat → Nat → List Char
  | 0, _, _ => []
  | fuel + 1, rem, den =>
    if rem = 0 then []
    else Char.ofNat ('0'.toNat + rem * 10 / den) :: fracDigitsNat fuel (rem * 10 % den) den

/-- Models the JS number→string conversion for the finite-decimal
rationals the app produces: sign, integer part, and the terminating run of
fractional digits (20 digits of fuel are ample for every value
considered; JS prints the same shortest decimal for them). -/
def jsNumToStr (q : ℚ) : String :=
  let sign := if q.num < 0 then "-" else ""
  let n := q.num.natAbs
  let d := q.den
  let frac := fracDigitsNat 20 (n % d) d
  sign ++ Nat.repr (n / d) ++ (if frac.isEmpty then "" else "." ++ String.mk frac)

/-- An exported cell `v || ""` for a nullable number (part_001:788-800):
`null`, `NaN` and `0` all print as the empty cell. -/
def numCell (v : Option ℚ) : String :=
  match v with
  | none => ""
  | some q => if q = 0 then "" else jsNumToStr q

/-- An exported cell `v || 0` (part_001:793-795). -/
def numCell0 (v : Option ℚ) : String :=
  jsNumToStr (jsOrQ v 0)

/-- An exported cell `quantity || ""` (part_001:790). -/
def intCell (v : Option Int) : String :=
  match v with
  | none => ""
  | some n => if n = 0 then "" else intToStr n

/-- The quote-escaped notes cells, part_001:801-802: wrapped in quotes with
inner quotes doubled. -/
def quotedCell (s : String) : String :=
  "\"" ++ String.mk (s.data.foldr
    (fun c acc => if c = '"' then '"' :: '"' :: acc else c :: acc) []) ++ "\""

/-- A trade as stored by the part_001 revision, i.e. the fields its
`exportToCSV` reads.  `strike` and `expiration` are kept as the raw form
strings (that is how the add handler stores them). -/
structure StoredTrade where
  date : String
  ticker : String
  strategy : String
  option_type : String
  strike : String
  expiration : String
  quantity : Option Int
  entry_price : Option ℚ
  exit_price : Option ℚ
  premium : Option ℚ
  fees : Option ℚ
  net_pl : Option ℚ
  outcome : String
  delta : Option ℚ
  gamma : Option ℚ
  theta : Option ℚ
  vega : Option ℚ
  trade_notes : String
  post_trade_analysis : String
  created_at : String
deriving Repr, DecidableEq

/-- The export column headers, part_001:772-777. -/
def exportHeadersP1 : List String :=
  ["Date", "Ticker", "Strategy", "Option Type", "Strike", "Expiration",
   "Quantity", "Entry Price", "Exit Price", "Premium", "Fees", "Net P&L",
   "Outcome", "Delta", "Gamma", "Theta", "Vega",
   "Trade Notes", "Post-Trade Analysis", "Created At"]

/-- The cells of one exported row, part_001:783-804. -/
def exportRowP1 (t : StoredTrade) : List String :=
  [strOr t.date "", strOr t.ticker "", strOr t.strategy "", strOr t.option_type "",
   strOr t.strike "", strOr t.expiration "", intCell t.quantity,
   numCell t.entry_price, numCell t.exit_price,
   numCell0 t.premium, numCell0 t.fees, numCell0 t.net_pl,
   strOr t.outcome "", numCell t.delta, numCell t.gamma, numCell t.theta,
   numCell t.vega, quotedCell t.trade_notes, quotedCell t.post_trade_analysis,
   strOr t.created_at ""]

/-- `row.join(",")`. -/
def joinComma : List String → String
  | [] => ""
  | [s] => s
  | s :: rest => s ++ "," ++ joinComma rest

/-- `exportToCSV`, part_001:762-831: the header line, then one line per
trade, each newline-terminated (part_001:780, 805). -/
def exportToCSV (trades : List StoredTrade) : String :=
  (joinComma exportHeadersP1 ++ "\n")
    ++ String.join (trades.map (fun t => joinComma (exportRowP1 t) ++ "\n"))

/-- A concrete stored trade used to exhibit the export → re-import
behaviour: entry 100, exit 110, quantity 2, premium 0, fees −1,
net P&L 19, a Win. -/
def sampleStoredTrade : StoredTrade :=
  { date := "2024-01-02", ticker := "AAPL", strategy := "CC",
    option_type := "Call", strike := "150", expiration := "2024-02-16",
    quantity := some 2, entry_price := some 100, exit_price := some 110,
    premium := some 0, fees := some (-1), net_pl := some 19, outcome := "Win",
    delta := none, gamma := none, theta := none, vega := none,
    trade_notes := "", post_trade_analysis := "",
    created_at := "2024-01-02T10:00:00.000Z" }

end TradingJournal

namespace TradingJournal

/-- Claim C1, counterexample: the claim says every add-trade operation yields
`net_pl = 19` for entry 100, exit 110, quantity 2, premium 0, fees −1, but
the second `handleAddTrade` revision (part_000:1392) computes
`premium + fees = -1` and outcome `"Loss"` on exactly that input. -/
theorem C1_counterexample :
    addTradeNetPLv2 ⟨"100", "110", "2", "0", "-1"⟩ = -1 ∧
    addTradeNetPLv2 ⟨"100", "110", "2", "0", "-1"⟩ ≠ 19 ∧
    tradeOutcome (addTradeNetPLv2 ⟨"100", "110", "2", "0", "-1"⟩) = "Loss" := by
  refine ⟨?_, ?_, ?_⟩ <;>
    simp +decide [addTradeNetPLv2, tradeOutcome, parseFloatOr, jsOrQ, jsParseFloat,
      digitsToNat, List.dropWhile, List.takeWhile]

/-- Claim C1, amended: for entry 100, exit 110, quantity 2, premium 0, fees −1 the
handlers that use the conditional formula (`handleAddTrade` part_000:308 and
`handleEditTradeSubmit` part_000:766) produce `net_pl = 19` and outcome
`"Win"`; the premium-only revision (`handleAddTrade` part_000:1364 and
`handleEditTrade` part_000:1500) produces `net_pl = -1` and outcome
`"Loss"` on the same input. -/
theorem C1_amended_netPL :
    (addTradeNetPLv1 ⟨"100", "110", "2", "0", "-1"⟩ = 19 ∧
      tradeOutcome (addTradeNetPLv1 ⟨"100", "110", "2", "0", "-1"⟩) = "Win") ∧
    (editTradeNetPLv1 ⟨"100", "110", "2", "0", "-1"⟩ = 19 ∧
      tradeOutcome (editTradeNetPLv1 ⟨"100", "110", "2", "0", "-1"⟩) = "Win") ∧
    (addTradeNetPLv2 ⟨"100", "110", "2", "0", "-1"⟩ = -1 ∧
      tradeOutcome (addTradeNetPLv2 ⟨"100", "110", "2", "0", "-1"⟩) = "Loss") ∧
    (editTradeNetPLv2 ⟨"100", "110", "2", "0", "-1"⟩ = -1 ∧
      tradeOutcome (editTradeNetPLv2 ⟨"100", "110", "2", "0", "-1"⟩) = "Loss") := by
  refine ⟨⟨?_, ?_⟩, ⟨?_, ?_⟩, ⟨?_, ?_⟩, ⟨?_, ?_⟩⟩ <;>
    simp +decide [addTradeNetPLv1, editTradeNetPLv1, addTradeNetPLv2, editTradeNetPLv2,
      tradeOutcome, parseFloatOr, parseFloatOrNull, parseIntOr, jsOrQ, jsParseFloat,
      jsParseInt, digitsToNat, List.dropWhile, List.takeWhile] <;> norm_num

/-! ### Helper lemmas shared by the metric theorems -/

/-- `sumPL` is the sum of the extracted `net_pl` values. -/
theorem sumPL_eq_sum_map (l : List MTrade) :
    sumPL l = (l.map (fun t => jsOrQ t.net_pl 0)).sum := by
  have h : ∀ (l : List MTrade) (a : ℚ),
      l.foldl (fun s t => s + jsOrQ t.net_pl 0) a
        = a + (l.map (fun t => jsOrQ t.net_pl 0)).sum := by
    intro l
    induction l with
    | nil => simp
    | cons t ts ih =>
      intro a
      simp only [List.foldl_cons, List.map_cons, List.sum_cons, ih]
      ring
  simpa [sumPL] using h l 0

/-- A nonempty list of negative rationals has negative sum. -/
theorem list_sum_neg_of_all_neg (l : List ℚ) (hne : l ≠ [])
    (hall : ∀ x ∈ l, x < 0) : l.sum < 0 := by
  induction l with
  | nil => exact absurd rfl hne
  | cons x xs ih =>
    rcases List.eq_nil_or_concat xs with h | _
    · subst h
      simpa using hall x (by simp)
    · by_cases hxs : xs = []
      · subst hxs
        simpa using hall x (by simp)
      · have h1 : x < 0 := hall x (by simp)
        have h2 : xs.sum < 0 := ih hxs (fun y hy => hall y (by simp [hy]))
        simpa using add_neg h1 h2

/-- The sum of the `net_pl` values of the app.js win list is non-negative. -/
theorem sumPL_ajWins_nonneg (l : List MTrade) : 0 ≤ sumPL (ajWins l) := by
  rw [sumPL_eq_sum_map]
  apply List.sum_nonneg
  intro x hx
  simp only [List.mem_map] at hx
  obtain ⟨t, ht, rfl⟩ := hx
  have := (List.mem_filter.mp ht).2
  exact of_decide_eq_true this

/-- The sum of the `net_pl` values of a nonempty app.js loss list is
strictly negative. -/
theorem sumPL_ajLosses_neg (l : List MTrade) (h : (ajLosses l).length ≠ 0) :
    sumPL (ajLosses l) < 0 := by
  rw [sumPL_eq_sum_map]
  apply list_sum_neg_of_all_neg
  · simpa [List.length_eq_zero] using h
  · intro x hx
    simp only [List.mem_map] at hx
    obtain ⟨t, ht, rfl⟩ := hx
    have := (List.mem_filter.mp ht).2
    exact of_decide_eq_true this

/-- Claim C2, counterexample: the part_002 revision of `calculateMetrics` returns
`winRate` as a percentage; on a single winning trade it is `100`, outside
the claimed interval `[0,1]`. -/
theorem C2_counterexample :
    (calculateMetricsP2 [⟨some 5, "Win"⟩]).winRate = 100 ∧
    ¬(calculateMetricsP2 [⟨some 5, "Win"⟩]).winRate ≤ 1 := by
  constructor <;>
    simp +decide [calculateMetricsP2, p2Wins, p2Losses, sumPL, jsOrQ]

/-- Claim C2, amended: for every trade list, both revisions of `calculateMetrics`
return `totalPL = Σ (net_pl || 0)`; in the app.js revision `winRate` is a
fraction in `[0,1]`, zero on the empty list, while in the part_002 revision
`winRate` is a percentage in `[0,100]`, zero on the empty list. -/
theorem C2_amended_metrics (trades : List MTrade) :
    (calculateMetrics trades).totalPL = sumPL trades ∧
    0 ≤ (calculateMetrics trades).winRate ∧
    (calculateMetrics trades).winRate ≤ 1 ∧
    (trades = [] → (calculateMetrics trades).winRate = 0) ∧
    (calculateMetricsP2 trades).totalPL = sumPL trades ∧
    0 ≤ (calculateMetricsP2 trades).winRate ∧
    (calculateMetricsP2 trades).winRate ≤ 100 ∧
    (trades = [] → (calculateMetricsP2 trades).winRate = 0) := by
  by_cases h : trades = []
  · subst h
    simp [calculateMetrics, calculateMetricsP2, sumPL]
  · have hn : trades.length ≠ 0 := by simpa [List.length_eq_zero] using h
    have hp : (0 : ℚ) < (trades.length : ℚ) := by
      exact_mod_cast Nat.pos_of_ne_zero hn
    have hwins : ((ajWins trades).length : ℚ) ≤ (trades.length : ℚ) :=
      Nat.cast_le.mpr (List.length_filter_le _ _)
    have hwinsP2 : ((p2Wins trades).length : ℚ) ≤ (trades.length : ℚ) :=
      Nat.cast_le.mpr (List.length_filter_le _ _)
    have hfrac : ((ajWins trades).length : ℚ) / (trades.length : ℚ) ≤ 1 :=
      div_le_one_of_le₀ hwins (le_of_lt hp)
    have hfracP2 : ((p2Wins trades).length : ℚ) / (trades.length : ℚ) ≤ 1 :=
      div_le_one_of_le₀ hwinsP2 (le_of_lt hp)
    have hnn : 0 ≤ ((ajWins trades).length : ℚ) / (trades.length : ℚ) :=
      div_nonneg (Nat.cast_nonneg _) (Nat.cast_nonneg _)
    have hnnP2 : 0 ≤ ((p2Wins trades).length : ℚ) / (trades.length : ℚ) :=
      div_nonneg (Nat.cast_nonneg _) (Nat.cast_nonneg _)
    refine ⟨?_, ?_, ?_, fun hc => absurd hc h, ?_, ?_, ?_, fun hc => absurd hc h⟩
    · simp [calculateMetrics, hn]
    · simpa [calculateMetrics, hn, Nat.pos_of_ne_zero hn] using hnn
    · simpa [calculateMetrics, hn, Nat.pos_of_ne_zero hn] using hfrac
    · simp [calculateMetricsP2, hn]
    · simpa [calculateMetricsP2, hn, Nat.pos_of_ne_zero hn] using
        mul_nonneg hnnP2 (by norm_num : (0 : ℚ) ≤ 100)
    · have h100 : ((p2Wins trades).length : ℚ) / (trades.length : ℚ) * 100 ≤ 100 := by
        have := mul_le_mul_of_nonneg_right hfracP2 (by norm_num : (0 : ℚ) ≤ 100)
        simpa using this
      simpa [calculateMetricsP2, hn, Nat.pos_of_ne_zero hn] using h100

/-- Witness for `C2_amended_metrics` at the empty list and at a singleton. -/
theorem C2_amended_metrics_witness :
    (calculateMetrics []).totalPL = sumPL [] ∧
    (calculateMetrics []).winRate = 0 ∧
    (calculateMetricsP2 []).winRate = 0 ∧
    0 ≤ (calculateMetrics [⟨some 5, "Win"⟩]).winRate ∧
    (calculateMetrics [⟨some 5, "Win"⟩]).winRate ≤ 1 :=
  ⟨(C2_amended_metrics []).1, (C2_amended_metrics []).2.2.2.1 rfl,
   (C2_amended_metrics []).2.2.2.2.2.2.2 rfl,
   (C2_amended_metrics [⟨some 5, "Win"⟩]).2.1,
   (C2_amended_metrics [⟨some 5, "Win"⟩]).2.2.1⟩

/-- Claim C3, counterexample: deleting a trade with `net_pl = -50` from a balance
of `1000` yields `1050` — the balance *increases* by 50, it does not
decrease to `950` as the claim states. -/
theorem C3_counterexample :
    deleteTradeBalance 1000 (some (-50)) = 1050 ∧
    deleteTradeBalance 1000 (some (-50)) ≠ 1000 - 50 := by
  constructor <;> simp [deleteTradeBalance, jsOrQ] <;> norm_num

/-- Claim C3, amended: `deleteTrade` changes `currentBalance` by `-(net_pl || 0)`
(so deleting a trade with `net_pl = -50` *increases* the balance by 50),
`addTrade` changes it by `+(net_pl || 0)`, and deleting right after adding
restores the pre-add balance. -/
theorem C3_amended_deleteInverse (b : ℚ) (pl : Option ℚ) :
    deleteTradeBalance (addTradeBalance b pl) pl = b ∧
    deleteTradeBalance b pl = b - jsOrQ pl 0 ∧
    addTradeBalance b pl = b + jsOrQ pl 0 ∧
    deleteTradeBalance b (some (-50)) = b + 50 := by
  refine ⟨?_, rfl, rfl, ?_⟩
  · simp [deleteTradeBalance, addTradeBalance]
  · simp [deleteTradeBalance, jsOrQ]

/-- Claim C6, counterexample: in the part_002 revision, a single trade stored with
`outcome = "Win"` and `net_pl = 0` gives losses summing to zero and a
winning trade present, yet `profitFactor = 0`, not the claimed `999`. -/
theorem C6_counterexample :
    sumPL (p2Losses [⟨some 0, "Win"⟩]) = 0 ∧
    (p2Wins [⟨some 0, "Win"⟩]).length = 1 ∧
    (calculateMetricsP2 [⟨some 0, "Win"⟩]).profitFactor = 0 ∧
    (calculateMetricsP2 [⟨some 0, "Win"⟩]).profitFactor ≠ 999 := by
  refine ⟨?_, ?_, ?_, ?_⟩ <;>
    simp +decide [calculateMetricsP2, p2Wins, p2Losses, sumPL, jsOrQ]

/-- Claim C6, amended: for every trade list, in the app.js revision
`profitFactor = grossWins / |grossLosses|` whenever loss trades exist (and
their sum is then strictly negative, so the division is well defined), the
sentinel is `999` when winning trades exist and `0` otherwise, and
`profitFactor` is always non-negative and finite; in the part_002 revision
the ratio is taken whenever the summed `net_pl` of the loss trades is nonzero,
and the sentinel is `999` exactly when the gross winning P&L is positive
(not merely when winning trades exist), `0` otherwise. -/
theorem C6_amended_profitFactor (trades : List MTrade) :
    ((ajLosses trades).length ≠ 0 → sumPL (ajLosses trades) < 0 ∧
      (calculateMetrics trades).profitFactor
        = sumPL (ajWins trades) / |sumPL (ajLosses trades)|) ∧
    ((ajLosses trades).length = 0 → (calculateMetrics trades).profitFactor
        = if 0 < (ajWins trades).length then 999 else 0) ∧
    0 ≤ (calculateMetrics trades).profitFactor ∧
    (|sumPL (p2Losses trades)| ≠ 0 → (calculateMetricsP2 trades).profitFactor
        = sumPL (p2Wins trades) / |sumPL (p2Losses trades)|) ∧
    (|sumPL (p2Losses trades)| = 0 → (calculateMetricsP2 trades).profitFactor
        = if 0 < sumPL (p2Wins trades) then 999 else 0) := by
  by_cases h : trades = []
  · subst h
    simp [calculateMetrics, calculateMetricsP2, ajWins, ajLosses, p2Wins, p2Losses, sumPL]
  · have hn : trades.length ≠ 0 := by simpa [List.length_eq_zero] using h
    refine ⟨fun hl => ⟨sumPL_ajLosses_neg trades hl, ?_⟩, fun hl => ?_, ?_, fun hl => ?_, fun hl => ?_⟩
    · simp [calculateMetrics, hn, Nat.pos_of_ne_zero hl]
    · simp [calculateMetrics, hn, hl]
    · by_cases hl : (ajLosses trades).length = 0
      · simp only [calculateMetrics, hn, if_false, hl]
        by_cases hw : 0 < (ajWins trades).length <;> simp [hw]
      · have h1 : 0 ≤ sumPL (ajWins trades) := sumPL_ajWins_nonneg trades
        have h2 : 0 ≤ |sumPL (ajLosses trades)| := abs_nonneg _
        simp only [calculateMetrics, hn, if_false, Nat.pos_of_ne_zero hl, if_true]
        simpa [hn, Nat.pos_of_ne_zero hl] using div_nonneg h1 h2
    · have hpos : 0 < |sumPL (p2Losses trades)| := lt_of_le_of_ne (abs_nonneg _) (Ne.symm hl)
      simp [calculateMetricsP2, hn, hpos]
    · simp [calculateMetricsP2, hn, hl]

/-! ### Drawdown lemmas -/

/-- The `if balance > peak` update of the drawdown loop is the maximum. -/
theorem drawdown_peak_eq_max (pk b : ℚ) : (if pk < b then b else pk) = max pk b := by
  rcases le_or_lt b pk with h | h
  · simp [not_lt_of_le h, max_eq_left h]
  · simp [h, max_eq_right (le_of_lt h)]

/-- The part_000 drawdown fold computes the maximum over the time-ordered
balance sequence of `(peak - balance) / peak`, for any initial peak and
accumulator. -/
theorem drawdown_foldl_eq (history : List ℚ) : ∀ pk md : ℚ,
    (history.foldl drawdownStep (pk, md)).2
      = (((runningPeaks pk history).zip history).map
          (fun p => (p.1 - p.2) / p.1)).foldl max md := by
  induction history with
  | nil => intro pk md; simp [runningPeaks]
  | cons b t ih =>
    intro pk md
    have hpeak : (if pk < b then b else pk) = max pk b := drawdown_peak_eq_max pk b
    have hrp : runningPeaks pk (b :: t) = max pk b :: runningPeaks (max pk b) t := by
      cases t <;> simp [runningPeaks, List.scanl]
    rw [List.foldl_cons]
    show (t.foldl drawdownStep (drawdownStep (pk, md) b)).2 = _
    rw [hrp]
    simp only [List.zip_cons_cons, List.map_cons, List.foldl_cons]
    rw [show drawdownStep (pk, md) b
        = (max pk b, max md ((max pk b - b) / max pk b)) by
      simp [drawdownStep, hpeak]]
    exact ih (max pk b) (max md ((max pk b - b) / max pk b))

/-- Witness for `C6_amended_profitFactor` at a list with one win and one
loss. -/
theorem C6_amended_profitFactor_witness :
    (sumPL (ajLosses [⟨some 5, "Win"⟩, ⟨some (-3), "Loss"⟩]) < 0 ∧
      (calculateMetrics [⟨some 5, "Win"⟩, ⟨some (-3), "Loss"⟩]).profitFactor
        = sumPL (ajWins [⟨some 5, "Win"⟩, ⟨some (-3), "Loss"⟩])
            / |sumPL (ajLosses [⟨some 5, "Win"⟩, ⟨some (-3), "Loss"⟩])|) ∧
    (calculateMetricsP2 [⟨some 5, "Win"⟩, ⟨some (-3), "Loss"⟩]).profitFactor
      = sumPL (p2Wins [⟨some 5, "Win"⟩, ⟨some (-3), "Loss"⟩])
          / |sumPL (p2Losses [⟨some 5, "Win"⟩, ⟨some (-3), "Loss"⟩])| := by
  have h := C6_amended_profitFactor [⟨some 5, "Win"⟩, ⟨some (-3), "Loss"⟩]
  refine ⟨h.1 (by decide), h.2.2.2.1 ?_⟩
  simp +decide [p2Losses, sumPL, jsOrQ]

/-- Claim C4, counterexample: on the example history of the spec, `[100,120,90,130]`
with starting capital 100, the app.js revision of
`calculatePortfolioMetrics` reports a maximum drawdown of `0`, not the
claimed `(120-90)/120 = 0.25`; the part_000 revision does compute `0.25`. -/
theorem C4_counterexample :
    (calculatePortfolioMetricsAJ 100 130 [100, 120, 90, 130]).maxDrawdown = 0 ∧
    (calculatePortfolioMetricsP0 100 130 [100, 120, 90, 130]).maxDrawdown = 1/4 ∧
    (calculatePortfolioMetricsAJ 100 130 [100, 120, 90, 130]).maxDrawdown ≠ 1/4 := by
  refine ⟨rfl, ?_, by norm_num [calculatePortfolioMetricsAJ]⟩
  norm_num [calculatePortfolioMetricsP0, drawdownStep, max_def]

/-- Claim C4, amended: the part_000 revision of `calculatePortfolioMetrics`
returns a maximum drawdown equal to the maximum over the time-ordered
balance sequence of `(peak−balance)/peak` (peak seeded with the starting
capital), and in particular `0.25` on `[100,120,90,130]` with starting
capital 100; the rebuilt app.js revision returns `maxDrawdown = 0`
unconditionally.  The positivity hypothesis keeps every peak positive, so
the rational-division embedding agrees with the JS arithmetic (division by
a zero peak would be `NaN`/`Infinity` in JS). -/
theorem C4_amended_maxDrawdown (startingCapital currentBalance : ℚ)
    (history : List ℚ) (hpos : 0 < startingCapital) :
    (calculatePortfolioMetricsP0 startingCapital currentBalance history).maxDrawdown
      = maxDrawdownSpec startingCapital history ∧
    (calculatePortfolioMetricsAJ startingCapital currentBalance history).maxDrawdown
      = 0 := by
  constructor
  · show (history.foldl drawdownStep (startingCapital, 0)).2 = _
    rw [drawdown_foldl_eq history startingCapital 0]
    rfl
  · rfl

/-- Witness for `C4_amended_maxDrawdown` at the example input given in the spec. -/
theorem C4_amended_maxDrawdown_witness :
    (calculatePortfolioMetricsP0 100 130 [100, 120, 90, 130]).maxDrawdown
      = maxDrawdownSpec 100 [100, 120, 90, 130] ∧
    (calculatePortfolioMetricsAJ 100 130 [100, 120, 90, 130]).maxDrawdown = 0 :=
  C4_amended_maxDrawdown 100 130 [100, 120, 90, 130] (by norm_num)

/-! ### The displayed-subset invariant -/

/-- A filtered list is a sub-multiset of the list. -/
theorem coe_filter_le (l : List TradeR) (p : TradeR → Bool) :
    ((l.filter p : List TradeR) : Multiset TradeR) ≤ (l : Multiset TradeR) :=
  (Multiset.coe_le).mpr (List.Sublist.subperm (List.filter_sublist l))

/-- Claim C10, confirmed: the displayed-subset invariant — every element of
`filteredTrades` is an element of `trades`, with multiplicity — holds after
loading, and is preserved by adding a trade, deleting a trade, committing
an import, applying filters and resetting filters. -/
theorem C10_displayedSubset_invariant (dv : String → Int) (s : JState)
    (db preview : List TradeR) (t : TradeR) (id : Int) (c : FilterCriteria)
    (h : displayedSubset s) :
    displayedSubset (loadAllData dv db) ∧
    displayedSubset (addTradeState s t) ∧
    displayedSubset (deleteTradeState s id) ∧
    displayedSubset (commitImportState dv s preview) ∧
    displayedSubset (applyFiltersState dv s c) ∧
    displayedSubset (resetFiltersState s) := by
  refine ⟨le_refl _, le_refl _, ?_, le_refl _, ?_, le_refl _⟩
  · have hsub : List.Subperm s.filteredTrades s.trades := (Multiset.coe_le).mp h
    exact (Multiset.coe_le).mpr (List.Subperm.filter _ hsub)
  · exact coe_filter_le s.trades (matchesFilters dv c)

/-! ### CSV tokenization (C5) -/

/-- Claim C5: the quote-aware tokenizers (`parseCSVLine` of part_000/part_001 and
the doubled-quote variant of part_002) keep a comma inside a double-quoted
field within a single field value, but the rebuilt app.js revision
tokenizes data rows with a naive `split(",")`: on the same line it produces
four values instead of three, so (the value count differing from the header
count) the row is dropped entirely, while the part_000 importer accepts it
with the embedded comma intact in the ticker field. -/
theorem C5_quotedComma_tokenization :
    parseCSVLine "2024-01-02,\"ACME, Inc\",100" = ["2024-01-02", "ACME, Inc", "100"] ∧
    parseCSVLineP2 "2024-01-02,\"ACME, Inc\",100" = ["2024-01-02", "ACME, Inc", "100"] ∧
    appjsRowValues "2024-01-02,\"ACME, Inc\",100" = ["2024-01-02", "ACME", "Inc", "100"] ∧
    parseCSVAppjsRows ["date", "ticker", "net_pl"] ["2024-01-02,\"ACME, Inc\",100"] = [] ∧
    (parseCSVRows ["date", "ticker", "net_pl"] ["2024-01-02,\"ACME, Inc\",100"]).2 = 0 ∧
    ((parseCSVRows ["date", "ticker", "net_pl"]
        ["2024-01-02,\"ACME, Inc\",100"]).1.map (fun t => t.ticker)) = ["ACME, INC"] := by
  decide

/-! ### CSV row skipping (C7) -/

/-- The parseCSV data-row fold, for any starting accumulator: the collected
trades are the normalizations of the valid rows in order, and the skip
counter advances by the number of invalid rows. -/
theorem parseCSVRows_foldl (headers : List String) (rows : List String) :
    ∀ acc : List CSVTrade × Nat,
      rows.foldl (parseCSVStep headers) acc
        = (acc.1 ++ rows.filterMap (fun line =>
              if rowValid (rowOf headers line)
              then some (normRow (rowOf headers line)) else none),
           acc.2 + (rows.filter (fun line => !rowValid (rowOf headers line))).length) := by
  induction rows with
  | nil => intro acc; simp
  | cons r rs ih =>
    intro acc
    by_cases hv : rowValid (rowOf headers r)
    · simp [parseCSVStep, hv, ih]
    · simp [parseCSVStep, hv, ih, Nat.add_assoc, Nat.add_comm]

/-- Claim C7, confirmed: for every CSV input (with a header line and at least one
data line), the import normalizer returns exactly the normalized valid data
rows, in order — a row lacking a date or a ticker does not appear and does
not abort the rest of the batch — and the skipped-row count is exactly the
number of rows lacking a date or a ticker. -/
theorem C7_invalid_rows_skipped (content l0 l1 : String) (rest : List String)
    (h : csvLines content = l0 :: l1 :: rest) :
    parseCSV content
      = some ((l1 :: rest).filterMap (fun line =>
            if rowValid (rowOf ((parseCSVLine l0).map normalizeHeader) line)
            then some (normRow (rowOf ((parseCSVLine l0).map normalizeHeader) line))
            else none),
          ((l1 :: rest).filter (fun line =>
            !rowValid (rowOf ((parseCSVLine l0).map normalizeHeader) line))).length) := by
  have hfold := parseCSVRows_foldl ((parseCSVLine l0).map normalizeHeader)
    (l1 :: rest) ([], 0)
  simp only [parseCSV, h, parseCSVRows]
  rw [hfold]
  simp

/-- Witness for `C7_invalid_rows_skipped`: a CSV whose second data row
lacks a ticker and whose third lacks a date; only the first survives and
the skip count is 2. -/
theorem C7_invalid_rows_skipped_witness :
    csvLines "date,ticker\n2024-01-01,aapl\n2024-01-02,\n,msft"
      = ["date,ticker", "2024-01-01,aapl", "2024-01-02,", ",msft"] ∧
    (parseCSV "date,ticker\n2024-01-01,aapl\n2024-01-02,\n,msft").map
        (fun r => (r.1.map (fun t => (t.date, t.ticker)), r.2))
      = some ([("2024-01-01", "AAPL")], 2) := by
  refine ⟨by decide, ?_⟩
  rw [C7_invalid_rows_skipped "date,ticker\n2024-01-01,aapl\n2024-01-02,\n,msft"
    "date,ticker" "2024-01-01,aapl" ["2024-01-02,", ",msft"] (by decide)]
  decide

/-! ### CSV field defaults (C8) -/

/-- Claim C8, counterexample: the part_002 `importCSV` revision defaults a
missing fees field to `0` (not `-0.65`) and a missing outcome to `"Win"`
even when the parsed `net_pl` is negative. -/
theorem C8_counterexample :
    (importRowP2 [("date", "2024-01-02"), ("ticker", "aapl"),
        ("strategy", "CC"), ("net_pl", "-5")]).fees = 0 ∧
    (importRowP2 [("date", "2024-01-02"), ("ticker", "aapl"),
        ("strategy", "CC"), ("net_pl", "-5")]).fees ≠ -(65/100) ∧
    (importRowP2 [("date", "2024-01-02"), ("ticker", "aapl"),
        ("strategy", "CC"), ("net_pl", "-5")]).outcome = "Win" ∧
    (importRowP2 [("date", "2024-01-02"), ("ticker", "aapl"),
        ("strategy", "CC"), ("net_pl", "-5")]).net_pl = -5 := by
  refine ⟨?_, ?_, ?_, ?_⟩ <;>
    simp +decide [importRowP2, lookupRow, strOr, parseFloatOr, jsOrQ, jsParseFloat,
      digitsToNat, List.dropWhile, List.takeWhile, List.find?]

/-- Claim C8, amended: for every accepted row, the parseCSV normalizers
(part_000/part_001, and app.js for the fields below) default a missing fees
field to `-0.65`, a missing quantity to `1`, a missing outcome to `"Win"`
exactly when the parsed `net_pl` is non-negative (app.js always recomputes
the outcome this way), and upper-case the ticker; the part_002 `importCSV`
revision instead defaults a missing fees field to `0` and a missing outcome
to `"Win"` unconditionally (its quantity default and ticker upper-casing
agree). -/
theorem C8_amended_defaults (row : List (String × String)) :
    (lookupRow row "fees" = "" →
      (normRow row).fees = some (-(65/100)) ∧ (normRowAJ row).fees = some (-(65/100))) ∧
    (lookupRow row "quantity" = "" →
      (normRow row).quantity = some 1 ∧ (normRowAJ row).quantity = some 1) ∧
    (lookupRow row "outcome" = "" →
      (normRow row).outcome = (if jsGe0 (normRow row).net_pl then "Win" else "Loss")) ∧
    (normRowAJ row).outcome = (if jsGe0 (normRowAJ row).net_pl then "Win" else "Loss") ∧
    (normRow row).ticker = jsToUpper (lookupRow row "ticker") ∧
    (normRowAJ row).ticker = jsToUpper (lookupRow row "ticker") ∧
    (lookupRow row "fees" = "" → lookupRow row "Fees" = "" →
      (importRowP2 row).fees = 0) ∧
    (lookupRow row "quantity" = "" → lookupRow row "Quantity" = "" →
      (importRowP2 row).quantity = 1) ∧
    (lookupRow row "outcome" = "" → lookupRow row "Outcome" = "" →
      (importRowP2 row).outcome = "Win") ∧
    (importRowP2 row).ticker
      = jsToUpper (strOr (lookupRow row "ticker") (lookupRow row "Ticker")) := by
  refine ⟨fun h1 => ⟨?_, ?_⟩, fun h2 => ⟨?_, ?_⟩, fun h3 => ?_, ?_, rfl, rfl,
    fun h4 h5 => ?_, fun h6 h7 => ?_, fun h8 h9 => ?_, rfl⟩
  · simp [normRow, h1]
  · simp [normRowAJ, h1]
  · simp [normRow, h2]
  · simp [normRowAJ, h2]
  · simp [normRow, h3, strOr]
  · rfl
  · simp [importRowP2, h4, h5, strOr, parseFloatOr, jsParseFloat, jsOrQ]
  · simp [importRowP2, h6, h7, strOr, parseIntOr, jsParseInt]
  · simp [importRowP2, h8, h9, strOr]

/-- Witness for `C8_amended_defaults`: a row carrying only a date, a ticker
and a negative net P&L. -/
theorem C8_amended_defaults_witness :
    (normRow [("date", "2024-01-01"), ("ticker", "aapl")]).fees = some (-(65/100)) ∧
    (normRow [("date", "2024-01-01"), ("ticker", "aapl")]).quantity = some 1 ∧
    (normRow [("date", "2024-01-01"), ("ticker", "aapl")]).outcome
      = (if jsGe0 (normRow [("date", "2024-01-01"), ("ticker", "aapl")]).net_pl
          then "Win" else "Loss") ∧
    (importRowP2 [("date", "2024-01-01"), ("ticker", "aapl")]).fees = 0 ∧
    (importRowP2 [("date", "2024-01-01"), ("ticker", "aapl")]).quantity = 1 ∧
    (importRowP2 [("date", "2024-01-01"), ("ticker", "aapl")]).outcome = "Win" := by
  have h := C8_amended_defaults [("date", "2024-01-01"), ("ticker", "aapl")]
  exact ⟨(h.1 (by decide)).1, (h.2.1 (by decide)).1, h.2.2.1 (by decide),
    h.2.2.2.2.2.2.1 (by decide) (by decide),
    h.2.2.2.2.2.2.2.1 (by decide) (by decide),
    h.2.2.2.2.2.2.2.2.1 (by decide) (by decide)⟩

/-! ### CSV export → re-import round trip (C9) -/

set_option maxRecDepth 4000 in
/-- Claim C9: exporting a stored trade with `net_pl = 19` (part_001
`exportToCSV`) and re-importing the file with the same revision
`parseCSV` yields a trade whose `net_pl` is `0`: the export header
`Net P&L` normalizes to the key `net_p&l`, which the importer never reads
(it reads `net_pl` and `net_p_l`), so every trade P&L is zeroed by the
round trip.  The identity fields (date, upper-cased ticker, strategy,
outcome) do survive, and no row is skipped. -/
theorem C9_roundtrip_zeroes_net_pl :
    sampleStoredTrade.net_pl = some 19 ∧
    normalizeHeader "Net P&L" = "net_p&l" ∧
    (parseCSV (exportToCSV [sampleStoredTrade])).map
        (fun r => (r.1.map
            (fun u => (u.date, u.ticker, u.strategy, u.net_pl, u.outcome)), r.2))
      = some ([("2024-01-02", "AAPL", "CC", some 0, "Win")], 0) := by
  refine ⟨by decide, by decide, by rfl⟩

/-- Witness for `C10_displayedSubset_invariant` at a concrete state. -/
theorem C10_displayedSubset_witness :
    displayedSubset (loadAllData (fun _ => 0)
      [⟨some 1, "2024-01-01", "AAPL", "CC", some 5⟩]) ∧
    displayedSubset (addTradeState ⟨[], []⟩
      ⟨some 1, "2024-01-01", "AAPL", "CC", some 5⟩) ∧
    displayedSubset (deleteTradeState ⟨[], []⟩ 1) ∧
    displayedSubset (commitImportState (fun _ => 0) ⟨[], []⟩ []) ∧
    displayedSubset (applyFiltersState (fun _ => 0) ⟨[], []⟩ ⟨"", "", "", ""⟩) ∧
    displayedSubset (resetFiltersState ⟨[], []⟩) :=
  C10_displayedSubset_invariant (fun _ => 0) ⟨[], []⟩
    [⟨some 1, "2024-01-01", "AAPL", "CC", some 5⟩] []
    ⟨some 1, "2024-01-01", "AAPL", "CC", some 5⟩ 1 ⟨"", "", "", ""⟩ (le_refl _)

end TradingJournal
